import Mathlib

/-!
Shallow embedding of `src/ambiente.py` (the "Aria Milano" dashboard), restricted
to its data-loading and aggregation core:

* `load_environmental_data` (lines 29-59): reads a geojson station-metadata file,
  up to ten yearly measurement files (2016-2025), normalizes types and keys, and
  left-joins measurements with station metadata.
* `monthly_trend` (line 107): the per-month mean of `valore` after filtering by
  year and pollutant.

Modelling decisions, all taken from the Python/pandas semantics of the source:

* JSON scalar values that can be a string or an integer (station ids) are the
  inductive `JVal`; Python `str()` / pandas `astype(str)` is `pyStr`.
* Measurement `valore` fields can arrive as numbers or strings (`MVal`);
  `pd.to_numeric(-, errors := coerce)` is `MVal.toNumeric`, with NaN modelled
  as `none`.  The numeric-string grammar modelled is optional sign, integer
  digits, optional fractional digits, which covers the source data shapes.
* `pd.to_datetime` is called WITHOUT an errors argument in the source, so an
  unparsable date raises; `parseDate` returns `none` exactly on unparsable
  strings (ISO `YYYY-MM-DD` shape is what the yearly files contain) and the
  loader turns a `none` into the fatal `LoadError.dateParseError`.
* Reading a file is modelled by passing its parsed content: `Option` for the
  metadata file (absent file raises `FileNotFoundError`, modelled
  `sourceNotFound`) and `Nat → Option (List MeasRecord)` for the per-year files
  (`os.path.exists` false ⇒ `none` ⇒ the year is skipped).
* `pd.DataFrame([])` has no columns at all, so the column accesses on lines 52
  (`df_main[...]`) and 57 (`df_meta[...]`) raise `KeyError` when the respective
  record list is empty; this is `LoadError.keyError`.
* `pd.merge(df_main, df_meta, left_on := stazione_id, right_on := id,
  how := left)` keeps every left row, attaches every matching right row
  (duplicating the left row when several match) and fills NaN when none does;
  `leftJoin` reproduces this, with the right-hand columns as `Option`s.
* Missing numeric data (NaN) is `none : Option ℚ`; pandas `mean` skips NaN and
  yields NaN on an all-NaN/empty input, which `pandasMean` mirrors with `none`.
-/

/-- A JSON scalar that is either a string or an integer, as found in the
`id_amat` / `stazione_id` fields of the source files. -/
inductive JVal where
  | jstr (s : String)
  | jint (n : Int)
deriving DecidableEq, Repr

/-- Python `str(-)` as applied by `astype(str)` to a station-id value. -/
def pyStr : JVal → String
  | .jstr s => s
  | .jint n => toString n

/-- A measurement value as stored in a yearly JSON file: either already a
number or a string still to be parsed. -/
inductive MVal where
  | mnum (q : ℚ)
  | mstr (s : String)
deriving DecidableEq, Repr

/-- One feature of the geojson feature collection: a `properties` object and a
`geometry` object, each a key/value map (the fields a claim inspects). -/
structure Feature where
  properties : List (String × JVal)
  geometry : List (String × List ℚ)
deriving DecidableEq, Repr

/-- One element of `stations_list` (ambiente.py lines 36-42). -/
structure StationRow where
  id : JVal
  nome : JVal
  coord : List ℚ
deriving DecidableEq, Repr

/-- One raw record of a yearly `<year>_stazioni.json` file. -/
structure MeasRecord where
  stazione_id : JVal
  inquinante : String
  data : String
  valore : MVal
deriving DecidableEq, Repr

/-- A calendar date as produced by `pd.to_datetime` on an ISO date string. -/
structure Date where
  year : Nat
  month : Nat
  day : Nat
deriving DecidableEq, Repr

/-- A row of `df_main` after the type normalization of lines 52-55 and the key
normalization of line 58. -/
structure MainRow where
  stazione_id : String
  inquinante : String
  data : Date
  valore : Option ℚ
  anno : Nat
  mese : Nat
deriving DecidableEq, Repr

/-- A row of the merged table returned on line 59: all `df_main` columns plus
the `df_meta` columns, which are missing (NaN) when no station matched. -/
structure UnifiedRow where
  stazione_id : String
  inquinante : String
  data : Date
  valore : Option ℚ
  anno : Nat
  mese : Nat
  id : Option String
  nome : Option JVal
  coord : Option (List ℚ)
deriving DecidableEq, Repr

/-- The ways `load_environmental_data` can raise, by source line:
`sourceNotFound` = `open` on a missing metadata file (line 34),
`schemaError` = `KeyError` in the station comprehension (lines 36-42),
`keyError c` = column access on an empty `DataFrame` (lines 52 / 57),
`dateParseError` = `pd.to_datetime` on an unparsable date (line 52). -/
inductive LoadError where
  | sourceNotFound
  | schemaError
  | keyError (col : String)
  | dateParseError
deriving DecidableEq, Repr

/-- Split a character list at every occurrence of `sep` (the single-character
case of Python `str.split` as used to read ISO dates and decimal strings). -/
def splitChar (sep : Char) : List Char → List (List Char)
  | [] => [[]]
  | c :: cs =>
    let r := splitChar sep cs
    if c = sep then [] :: r
    else
      match r with
      | [] => [[c]]
      | h :: t => (c :: h) :: t

/-- The numeric value of a decimal digit character, `none` otherwise. -/
def charDigit (c : Char) : Option Nat :=
  if 48 ≤ c.toNat ∧ c.toNat ≤ 57 then some (c.toNat - 48) else none

/-- Accumulator loop for `parseNat`. -/
def parseNatAux : List Char → Nat → Option Nat
  | [], acc => some acc
  | c :: cs, acc =>
    match charDigit c with
    | none => none
    | some d => parseNatAux cs (acc * 10 + d)

/-- Parse a non-empty all-digit character list as a natural number. -/
def parseNat : List Char → Option Nat
  | [] => none
  | cs => parseNatAux cs 0

/-- `pd.to_datetime` on one date string of the yearly files (ISO
`YYYY-MM-DD`); `none` models the `ParserError` pandas raises. -/
def parseDate (s : String) : Option Date :=
  match splitChar '-' s.data with
  | [y, m, d] =>
    match parseNat y, parseNat m, parseNat d with
    | some yn, some mn, some dn =>
      if 1 ≤ mn ∧ mn ≤ 12 ∧ 1 ≤ dn ∧ dn ≤ 31 then some ⟨yn, mn, dn⟩ else none
    | _, _, _ => none
  | _ => none

/-- Parse a decimal numeric string (optional sign, digits, optional fractional
digits) as an exact rational; `none` models NaN. -/
def parseRat (s : String) : Option ℚ :=
  let signSplit : Bool × List Char :=
    match s.data with
    | '-' :: rest => (true, rest)
    | cs => (false, cs)
  match splitChar '.' signSplit.2 with
  | [i] =>
    (parseNat i).map fun n => if signSplit.1 then -(n : ℚ) else (n : ℚ)
  | [i, f] =>
    match parseNat i, parseNat f with
    | some ni, some nf =>
      let q : ℚ := (ni : ℚ) + (nf : ℚ) / ((10 : ℚ) ^ f.length)
      some (if signSplit.1 then -q else q)
    | _, _ => none
  | _ => none

/-- `pd.to_numeric(-, errors := coerce)` on one `valore` cell (line 53):
numbers pass through, strings are parsed, failures become NaN (`none`). -/
def MVal.toNumeric : MVal → Option ℚ
  | .mnum q => some q
  | .mstr s => parseRat s

/-- The station extraction of one feature (the dict literal of lines 37-41):
`none` models the `KeyError` raised when a field is absent. -/
def extractStation (f : Feature) : Option StationRow :=
  match f.properties.lookup "id_amat", f.properties.lookup "nome",
      f.geometry.lookup "coordinates" with
  | some i, some n, some c => some ⟨i, n, c⟩
  | _, _, _ => none

/-- The `stations_list` comprehension of lines 36-42 over the whole feature
collection: fails with `schemaError` at the first feature missing a field. -/
def loadStations : List Feature → Except LoadError (List StationRow)
  | [] => .ok []
  | f :: fs =>
    match extractStation f with
    | none => .error .schemaError
    | some s =>
      match loadStations fs with
      | .error e => .error e
      | .ok rows => .ok (s :: rows)

/-- The per-year loop of lines 45-50: concatenate the records of every present
yearly file for 2016-2025, in year order; absent files contribute nothing. -/
def gatherRecords (files : Nat → Option (List MeasRecord)) : List MeasRecord :=
  (List.range' 2016 10).flatMap fun y => (files y).getD []

/-- The normalization of lines 52-55 and 58 applied to the record list:
parse dates (fatal on failure, since `pd.to_datetime` has no coerce here),
coerce values, derive `anno`/`mese`, and stringify the join key. -/
def normalizeAll : List MeasRecord → Except LoadError (List MainRow)
  | [] => .ok []
  | r :: rs =>
    match parseDate r.data with
    | none => .error .dateParseError
    | some d =>
      match normalizeAll rs with
      | .error e => .error e
      | .ok ms =>
        .ok (⟨pyStr r.stazione_id, r.inquinante, d, r.valore.toNumeric,
          d.year, d.month⟩ :: ms)

/-- The merged row for a measurement row and one matching station. -/
def joinRow (m : MainRow) (s : StationRow) : UnifiedRow :=
  ⟨m.stazione_id, m.inquinante, m.data, m.valore, m.anno, m.mese,
    some (pyStr s.id), some s.nome, some s.coord⟩

/-- The merged row for a measurement row with no matching station: the
right-hand columns are NaN. -/
def unmatchedRow (m : MainRow) : UnifiedRow :=
  ⟨m.stazione_id, m.inquinante, m.data, m.valore, m.anno, m.mese,
    none, none, none⟩

/-- `pd.merge(df_main, df_meta, left_on := stazione_id, right_on := id,
how := left)` (line 59): every left row is kept; each matching right row
produces one output row, and a left row with no match produces one output row
with missing right-hand columns. -/
def leftJoin (main : List MainRow) (meta : List StationRow) : List UnifiedRow :=
  main.flatMap fun m =>
    if (meta.filter fun s => pyStr s.id == m.stazione_id).isEmpty
    then [unmatchedRow m]
    else (meta.filter fun s => pyStr s.id == m.stazione_id).map (joinRow m)

/-- `load_environmental_data` (lines 29-59).  `geo` is the parsed metadata
file (`none` = file absent), `files y` the parsed yearly file for year `y`
(`none` = file absent). -/
def load_environmental_data (geo : Option (List Feature))
    (files : Nat → Option (List MeasRecord)) :
    Except LoadError (List UnifiedRow) :=
  match geo with
  | none => .error .sourceNotFound
  | some fs =>
    match loadStations fs with
    | .error e => .error e
    | .ok meta =>
      let records := gatherRecords files
      if records.isEmpty then .error (.keyError "data")
      else
        match normalizeAll records with
        | .error e => .error e
        | .ok main =>
          if meta.isEmpty then .error (.keyError "id")
          else .ok (leftJoin main meta)

/-- pandas `Series.mean()` with the default NaN skipping, over a column of
possibly-missing rationals: NaN entries are excluded, and an empty or all-NaN
column yields NaN (`none`), never zero. -/
def pandasMean (vals : List (Option ℚ)) : Option ℚ :=
  let vs := vals.filterMap id
  if vs.isEmpty then none else some (vs.sum / (vs.length : ℚ))

/-- The aggregation of line 107 (with the year filter taken from line 103),
evaluated at one group key `mese`: filter `df_final` by year and pollutant,
restrict to the month, and take the mean of `valore`. -/
def monthly_trend (df_final : List UnifiedRow) (selected_year : Nat)
    (selected_gas : String) (mese : Nat) : Option ℚ :=
  pandasMean ((df_final.filter fun r =>
    r.anno == selected_year && r.inquinante == selected_gas && r.mese == mese).map
    fun r => r.valore)

/-! Concrete source contents used by the end-to-end claims. -/

/-- The single station of the end-to-end scenario:
`{id: "500", name: "Via Test", coordinates: [9.19, 45.46]}`. -/
def viaTestFeature : Feature :=
  ⟨[("id_amat", .jstr "500"), ("nome", .jstr "Via Test")],
    [("coordinates", [(9.19 : ℚ), (45.46 : ℚ)])]⟩

/-- The single 2020 measurement of the end-to-end scenario. -/
def no2Record : MeasRecord :=
  ⟨.jstr "500", "NO2", "2020-03-15", .mstr "42.5"⟩

/-- A yearly-file environment holding exactly one 2020 file with the one
NO2 record. -/
def oneYearFiles : Nat → Option (List MeasRecord) :=
  fun y => if y = 2020 then some [no2Record] else none

/-- The same 2020 record but with an unparsable date string. -/
def badDateRecord : MeasRecord :=
  ⟨.jstr "500", "NO2", "not-a-date", .mstr "42.5"⟩

/-- A yearly-file environment holding exactly one 2020 file with the
unparsable-date record. -/
def badDateFiles : Nat → Option (List MeasRecord) :=
  fun y => if y = 2020 then some [badDateRecord] else none

/-- Station metadata with a duplicated id `"500"` (the source does not guard
against duplicates). -/
def dupFeatures : List Feature :=
  [viaTestFeature,
    ⟨[("id_amat", .jstr "500"), ("nome", .jstr "Via Copia")],
      [("coordinates", [9, 45])]⟩]

/-- Two yearly files of one record each, for 2020 and 2021. -/
def twoYearFiles : Nat → Option (List MeasRecord) :=
  fun y =>
    if y = 2020 then some [no2Record]
    else if y = 2021 then some [⟨.jstr "500", "NO2", "2021-03-15", .mnum 10⟩]
    else none

/-- `files` with the file for year `y` removed. -/
def removeYear (files : Nat → Option (List MeasRecord)) (y : Nat) :
    Nat → Option (List MeasRecord) :=
  fun z => if z = y then none else files z

/-- The unified row the end-to-end scenario must produce. -/
def viaTestRow : UnifiedRow :=
  ⟨"500", "NO2", ⟨2020, 3, 15⟩, some (42.5 : ℚ), 2020, 3,
    some "500", some (.jstr "Via Test"), some [(9.19 : ℚ), (45.46 : ℚ)]⟩

/-- The unified row produced for the 2021 record of `twoYearFiles` when the
metadata is the single `viaTestFeature`. -/
def viaTest2021Row : UnifiedRow :=
  ⟨"500", "NO2", ⟨2021, 3, 15⟩, some 10, 2021, 3,
    some "500", some (.jstr "Via Test"), some [(9.19 : ℚ), (45.46 : ℚ)]⟩

/-- The end-to-end record whose `valore` is the non-numeric string `n/d`. -/
def ndRecord : MeasRecord := ⟨.jstr "500", "NO2", "2020-03-15", .mstr "n/d"⟩

/-- A yearly-file environment holding exactly one 2020 file with the
`n/d`-valued record. -/
def ndFiles : Nat → Option (List MeasRecord) :=
  fun y => if y = 2020 then some [ndRecord] else none

/-- The unified row produced for `ndRecord`: `valore` is missing. -/
def ndRow : UnifiedRow :=
  ⟨"500", "NO2", ⟨2020, 3, 15⟩, none, 2020, 3,
    some "500", some (.jstr "Via Test"), some [(9.19 : ℚ), (45.46 : ℚ)]⟩

/-- A feature whose `properties` lack the `nome` field. -/
def noNomeFeature : Feature :=
  ⟨[("id_amat", .jstr "500")], [("coordinates", [9, 45])]⟩

/-! General lemmas about the embedded pipeline. -/

/-- `normalizeAll` succeeds exactly when every date parses, and then it keeps
every record, in order. -/
lemma normalizeAll_ok_length {rs : List MeasRecord} {ms : List MainRow}
    (h : normalizeAll rs = .ok ms) : ms.length = rs.length := by
  induction rs generalizing ms with
  | nil =>
    simp only [normalizeAll, Except.ok.injEq] at h
    subst h
    rfl
  | cons r rs ih =>
    simp only [normalizeAll] at h
    cases hd : parseDate r.data with
    | none => rw [hd] at h; cases h
    | some d =>
      rw [hd] at h
      cases hn : normalizeAll rs with
      | error e => rw [hn] at h; cases h
      | ok ms' =>
        rw [hn] at h
        cases h
        simp [ih hn]

/-- Provenance: a successful normalization maps each source record to a main
row with the stringified key, coerced value and derived year/month. -/
lemma normalizeAll_mem {rs : List MeasRecord} {ms : List MainRow}
    (h : normalizeAll rs = .ok ms) {r : MeasRecord} (hr : r ∈ rs) :
    ∃ d, parseDate r.data = some d ∧
      (⟨pyStr r.stazione_id, r.inquinante, d, r.valore.toNumeric,
        d.year, d.month⟩ : MainRow) ∈ ms := by
  induction rs generalizing ms with
  | nil => cases hr
  | cons a rs ih =>
    simp only [normalizeAll] at h
    cases hd : parseDate a.data with
    | none => rw [hd] at h; cases h
    | some d =>
      rw [hd] at h
      cases hn : normalizeAll rs with
      | error e => rw [hn] at h; cases h
      | ok ms' =>
        rw [hn] at h
        cases h
        rcases List.mem_cons.mp hr with rfl | hr'
        · exact ⟨d, hd, List.mem_cons_self _ _⟩
        · obtain ⟨d', hd', hm'⟩ := ih hn hr'
          exact ⟨d', hd', List.mem_cons_of_mem _ hm'⟩

/-- A successful normalization forces every date to parse. -/
lemma normalizeAll_dates {rs : List MeasRecord} {ms : List MainRow}
    (h : normalizeAll rs = .ok ms) {r : MeasRecord} (hr : r ∈ rs) :
    (parseDate r.data).isSome := by
  obtain ⟨d, hd, -⟩ := normalizeAll_mem h hr
  rw [hd]
  rfl

/-- `loadStations` yields one station row per feature. -/
lemma loadStations_ok_length {fs : List Feature} {rows : List StationRow}
    (h : loadStations fs = .ok rows) : rows.length = fs.length := by
  induction fs generalizing rows with
  | nil =>
    simp only [loadStations, Except.ok.injEq] at h
    subst h
    rfl
  | cons f fs ih =>
    simp only [loadStations] at h
    cases he : extractStation f with
    | none => rw [he] at h; cases h
    | some s =>
      rw [he] at h
      cases hl : loadStations fs with
      | error e => rw [hl] at h; cases h
      | ok rows' =>
        rw [hl] at h
        cases h
        simp [ih hl]

/-- The only error `loadStations` can produce is `schemaError`. -/
lemma loadStations_error_eq {fs : List Feature} {e : LoadError}
    (h : loadStations fs = .error e) : e = .schemaError := by
  induction fs with
  | nil => simp only [loadStations] at h; cases h
  | cons f fs ih =>
    simp only [loadStations] at h
    cases he : extractStation f with
    | none => rw [he] at h; cases h; rfl
    | some s =>
      rw [he] at h
      cases hl : loadStations fs with
      | error e' =>
        rw [hl] at h
        cases h
        exact ih hl
      | ok rows => rw [hl] at h; cases h

/-- `loadStations` fails exactly when some feature fails extraction. -/
lemma loadStations_error_iff (fs : List Feature) :
    (∃ e, loadStations fs = .error e) ↔ ∃ f ∈ fs, extractStation f = none := by
  induction fs with
  | nil =>
    constructor
    · rintro ⟨e, he⟩; simp only [loadStations] at he; cases he
    · rintro ⟨f, hf, -⟩; cases hf
  | cons f fs ih =>
    cases he : extractStation f with
    | none =>
      constructor
      · intro _; exact ⟨f, List.mem_cons_self _ _, he⟩
      · intro _; exact ⟨.schemaError, by simp only [loadStations, he]⟩
    | some s =>
      constructor
      · rintro ⟨e, hl⟩
        simp only [loadStations, he] at hl
        cases hfs : loadStations fs with
        | error e' =>
          obtain ⟨g, hg, hge⟩ := ih.mp ⟨e', hfs⟩
          exact ⟨g, List.mem_cons_of_mem _ hg, hge⟩
        | ok rows => rw [hfs] at hl; cases hl
      · rintro ⟨g, hg, hge⟩
        rcases List.mem_cons.mp hg with rfl | hg'
        · rw [he] at hge; cases hge
        · obtain ⟨e, hfs⟩ := ih.mpr ⟨g, hg', hge⟩
          exact ⟨e, by simp only [loadStations, he, hfs]⟩

/-- Extraction fails exactly when one of the three required fields is
absent. -/
lemma extractStation_eq_none_iff (f : Feature) :
    extractStation f = none ↔
      f.properties.lookup "id_amat" = none ∨ f.properties.lookup "nome" = none ∨
        f.geometry.lookup "coordinates" = none := by
  unfold extractStation
  cases f.properties.lookup "id_amat" <;> cases f.properties.lookup "nome" <;>
    cases f.geometry.lookup "coordinates" <;> simp

/-- Eliminating a successful `load_environmental_data` run into its parts. -/
lemma load_ok_parts {fs : List Feature} {files : Nat → Option (List MeasRecord)}
    {t : List UnifiedRow}
    (h : load_environmental_data (some fs) files = .ok t) :
    ∃ meta main, loadStations fs = .ok meta ∧
      normalizeAll (gatherRecords files) = .ok main ∧
      gatherRecords files ≠ [] ∧ meta ≠ [] ∧ t = leftJoin main meta := by
  simp only [load_environmental_data] at h
  split at h
  · cases h
  · rename_i meta hs
    split at h
    · cases h
    · rename_i hrec
      split at h
      · cases h
      · rename_i main hn
        split at h
        · cases h
        · rename_i hm
          cases h
          refine ⟨meta, main, hs, hn, ?_, ?_, rfl⟩
          · intro hnil
            rw [hnil] at hrec
            exact hrec rfl
          · intro hnil
            rw [hnil] at hm
            exact hm rfl

/-- If every yearly file in the supported decade is absent, no record is
gathered. -/
lemma gatherRecords_all_none {files : Nat → Option (List MeasRecord)}
    (h : ∀ y, 2016 ≤ y → y < 2026 → files y = none) :
    gatherRecords files = [] := by
  unfold gatherRecords
  rw [List.flatMap_eq_nil_iff]
  intro y hy
  rw [List.mem_range'_1] at hy
  rw [h y hy.1 (by omega)]
  rfl

/-- Removing one member of a duplicate-free index list removes exactly its
contribution from a concatenation. -/
lemma length_flatMap_remove {α : Type} (f : Nat → List α) (y : Nat)
    (l : List Nat) (hnd : l.Nodup) (hmem : y ∈ l) :
    (l.flatMap f).length =
      (l.flatMap fun z => if z = y then [] else f z).length + (f y).length := by
  induction l with
  | nil => cases hmem
  | cons a t ih =>
    rw [List.nodup_cons] at hnd
    rw [List.flatMap_cons, List.flatMap_cons, List.length_append,
      List.length_append]
    rcases List.mem_cons.mp hmem with rfl | hyt
    · rw [if_pos rfl]
      have hcongr : (t.flatMap fun z => if z = y then [] else f z) =
          t.flatMap f := by
        apply List.flatMap_congr
        intro z hz
        rw [if_neg]
        intro hzy
        exact hnd.1 (hzy ▸ hz)
      rw [hcongr]
      simp [Nat.add_comm]
    · rw [if_neg (fun hay : a = y => hnd.1 (by rw [hay]; exact hyt))]
      rw [ih hnd.2 hyt]
      omega

/-- Removing the yearly file of an in-range year removes exactly its records
from the gathered collection. -/
lemma gatherRecords_remove {files : Nat → Option (List MeasRecord)} {y : Nat}
    (h1 : 2016 ≤ y) (h2 : y < 2026) :
    (gatherRecords files).length =
      (gatherRecords (removeYear files y)).length + ((files y).getD []).length := by
  unfold gatherRecords removeYear
  have hcongr : ((List.range' 2016 10).flatMap fun z =>
      ((if z = y then none else files z).getD [])) =
      (List.range' 2016 10).flatMap fun z =>
        if z = y then [] else (files z).getD [] := by
    apply List.flatMap_congr
    intro z _
    by_cases hzy : z = y <;> simp [hzy]
  rw [hcongr]
  exact length_flatMap_remove (fun z => (files z).getD []) y (List.range' 2016 10)
    (List.nodup_range' 2016 10) (by rw [List.mem_range'_1]; omega)

/-- With duplicate-free normalized station ids, each measurement row
contributes exactly one joined row: the match list has at most one element. -/
lemma length_filter_key_le (meta : List StationRow) (c : String)
    (h : (meta.map fun s => pyStr s.id).Nodup) :
    (meta.filter fun s => pyStr s.id == c).length ≤ 1 := by
  induction meta with
  | nil => simp
  | cons a t ih =>
    rw [List.map_cons, List.nodup_cons] at h
    rw [List.filter_cons]
    by_cases hc : pyStr a.id == c
    · rw [if_pos hc]
      have hnil : t.filter (fun s => pyStr s.id == c) = [] := by
        rw [List.filter_eq_nil_iff]
        intro x hx hxc
        apply h.1
        rw [List.mem_map]
        exact ⟨x, hx, by rw [eq_of_beq hxc, eq_of_beq hc]⟩
      rw [hnil]
      simp
    · rw [if_neg hc]
      exact ih h.2

/-- With duplicate-free normalized station ids, the left join neither drops
nor duplicates measurement rows. -/
lemma leftJoin_length {main : List MainRow} {meta : List StationRow}
    (h : (meta.map fun s => pyStr s.id).Nodup) :
    (leftJoin main meta).length = main.length := by
  induction main with
  | nil => rfl
  | cons m t ih =>
    unfold leftJoin at ih ⊢
    rw [List.flatMap_cons, List.length_append, ih, List.length_cons]
    by_cases hf : (meta.filter fun s => pyStr s.id == m.stazione_id).isEmpty
    · rw [if_pos hf]
      simp [Nat.add_comm]
    · rw [if_neg hf, List.length_map]
      have hle := length_filter_key_le meta m.stazione_id h
      have hne : (meta.filter fun s => pyStr s.id == m.stazione_id).length ≠ 0 := by
        intro h0
        exact hf (List.isEmpty_iff_length_eq_zero.mpr h0)
      omega

/-- Every measurement row survives the left join in at least one output row
carrying the same measurement columns. -/
lemma leftJoin_mem_left {main : List MainRow} {meta : List StationRow}
    {m : MainRow} (hm : m ∈ main) :
    ∃ row ∈ leftJoin main meta,
      row.stazione_id = m.stazione_id ∧ row.inquinante = m.inquinante ∧
      row.data = m.data ∧ row.valore = m.valore ∧
      row.anno = m.anno ∧ row.mese = m.mese := by
  unfold leftJoin
  by_cases hf : (meta.filter fun s => pyStr s.id == m.stazione_id).isEmpty
  · refine ⟨unmatchedRow m, ?_, rfl, rfl, rfl, rfl, rfl, rfl⟩
    rw [List.mem_flatMap]
    exact ⟨m, hm, by rw [if_pos hf]; exact List.mem_singleton.mpr rfl⟩
  · have hne : meta.filter (fun s => pyStr s.id == m.stazione_id) ≠ [] := by
      intro hnil
      rw [hnil] at hf
      exact hf rfl
    obtain ⟨s, hs⟩ := List.exists_mem_of_ne_nil _ hne
    refine ⟨joinRow m s, ?_, rfl, rfl, rfl, rfl, rfl, rfl⟩
    rw [List.mem_flatMap]
    exact ⟨m, hm, by rw [if_neg hf]; exact List.mem_map.mpr ⟨s, hs, rfl⟩⟩

/-- Every joined row either carries the fields of a matching station or, when
no station matches its key, missing station columns. -/
lemma leftJoin_mem_cases {main : List MainRow} {meta : List StationRow}
    {row : UnifiedRow} (h : row ∈ leftJoin main meta) :
    (∃ s ∈ meta, pyStr s.id = row.stazione_id ∧ row.id = some (pyStr s.id) ∧
      row.nome = some s.nome ∧ row.coord = some s.coord) ∨
    ((∀ s ∈ meta, pyStr s.id ≠ row.stazione_id) ∧ row.id = none ∧
      row.nome = none ∧ row.coord = none) := by
  unfold leftJoin at h
  rw [List.mem_flatMap] at h
  obtain ⟨m, hm, hrow⟩ := h
  by_cases hf : (meta.filter fun s => pyStr s.id == m.stazione_id).isEmpty
  · rw [if_pos hf] at hrow
    have hrow' := List.mem_singleton.mp hrow
    subst hrow'
    right
    refine ⟨?_, rfl, rfl, rfl⟩
    intro s hs hc
    have hmem : s ∈ meta.filter fun s => pyStr s.id == m.stazione_id := by
      rw [List.mem_filter]
      exact ⟨hs, beq_iff_eq.mpr hc⟩
    rw [List.isEmpty_iff.mp hf] at hmem
    cases hmem
  · rw [if_neg hf] at hrow
    obtain ⟨s, hsf, hrow'⟩ := List.mem_map.mp hrow
    subst hrow'
    left
    have hs := List.mem_filter.mp hsf
    exact ⟨s, hs.1, eq_of_beq hs.2, rfl, rfl, rfl⟩

/-- A mean over an all-missing column is missing, never zero. -/
lemma pandasMean_all_none {vals : List (Option ℚ)} (h : ∀ v ∈ vals, v = none) :
    pandasMean vals = none := by
  unfold pandasMean
  have hnil : vals.filterMap id = [] := by
    rw [List.filterMap_eq_nil_iff]
    intro v hv
    rw [h v hv]
    rfl
  simp [hnil]

/-- The mean ignores missing entries: dropping them first changes nothing. -/
lemma pandasMean_filter_isSome (vals : List (Option ℚ)) :
    pandasMean vals = pandasMean (vals.filter Option.isSome) := by
  unfold pandasMean
  have hfm : vals.filterMap id = (vals.filter Option.isSome).filterMap id := by
    induction vals with
    | nil => rfl
    | cons a t ih =>
      cases a <;> simp [List.filterMap_cons, List.filter_cons, ih]
  rw [hfm]

/-! Claim theorems. -/

/-- C1: for every station-metadata file and every set of present yearly
measurement files, the row count of the unified table returned by the loader
equals the sum of the record counts of all present yearly files — the left
join neither drops nor duplicates any measurement row, provided station ids
are unique after normalization. -/
theorem C1_row_count_equals_sum_of_yearly_counts
    (fs : List Feature) (files : Nat → Option (List MeasRecord))
    (meta : List StationRow) (t : List UnifiedRow)
    (hmeta : loadStations fs = .ok meta)
    (hnodup : (meta.map fun s => pyStr s.id).Nodup)
    (ht : load_environmental_data (some fs) files = .ok t) :
    t.length =
      ((List.range' 2016 10).map fun y => ((files y).getD []).length).sum := by
  obtain ⟨meta', main, hs, hn, -, -, rfl⟩ := load_ok_parts ht
  rw [hmeta] at hs
  cases hs
  rw [leftJoin_length hnodup, normalizeAll_ok_length hn]
  unfold gatherRecords
  rw [List.length_flatMap]
  rfl

/-- Witness for C1 at the one-station, one-year scenario. -/
theorem C1_witness :
    [viaTestRow].length =
      ((List.range' 2016 10).map fun y =>
        ((oneYearFiles y).getD []).length).sum :=
  C1_row_count_equals_sum_of_yearly_counts [viaTestFeature] oneYearFiles
    [⟨.jstr "500", .jstr "Via Test", [(9.19 : ℚ), (45.46 : ℚ)]⟩] [viaTestRow]
    (by with_unfolding_all rfl) (by simp) (by with_unfolding_all rfl)

/-- C2: with one station `id "500", name "Via Test", coordinates
[9.19, 45.46]` and one 2020 yearly file holding the single record
`stazione_id "500", inquinante "NO2", data "2020-03-15", valore "42.5"`, the
loader returns exactly one row, with name `Via Test`, derived year 2020,
derived month 3 and value 42.5. -/
theorem C2_end_to_end_scenario :
    load_environmental_data (some [viaTestFeature]) oneYearFiles =
      .ok [viaTestRow] ∧
    viaTestRow.nome = some (.jstr "Via Test") ∧ viaTestRow.anno = 2020 ∧
    viaTestRow.mese = 3 ∧ viaTestRow.valore = some (42.5 : ℚ) :=
  ⟨by with_unfolding_all rfl, rfl, rfl, rfl, rfl⟩

/-- C3: a record whose `valore` fails numeric parsing does not make the load
raise — it is kept with a missing value; a mean over the value column ignores
missing entries rather than counting them as zero, and over only missing
entries it yields no data. -/
theorem C3_unparsable_value_kept_and_excluded_from_means
    (fs : List Feature) (files : Nat → Option (List MeasRecord))
    (t : List UnifiedRow)
    (ht : load_environmental_data (some fs) files = .ok t) :
    (∀ r ∈ gatherRecords files, r.valore.toNumeric = none →
      ∃ row ∈ t, row.stazione_id = pyStr r.stazione_id ∧
        row.inquinante = r.inquinante ∧ row.valore = none) ∧
    (∀ y g m, (∀ row ∈ t, row.valore = none) → monthly_trend t y g m = none) ∧
    (∀ y g m, monthly_trend t y g m =
      monthly_trend (t.filter fun row => row.valore.isSome) y g m) := by
  obtain ⟨meta, main, hs, hn, -, -, rfl⟩ := load_ok_parts ht
  refine ⟨?_, ?_, ?_⟩
  · intro r hr hval
    obtain ⟨d, -, hmem⟩ := normalizeAll_mem hn hr
    obtain ⟨row, hrow, h1, h2, -, h4, -, -⟩ := leftJoin_mem_left hmem
    refine ⟨row, hrow, h1, h2, ?_⟩
    rw [h4, hval]
  · intro y g m hall
    unfold monthly_trend
    apply pandasMean_all_none
    intro v hv
    obtain ⟨row, hrow, rfl⟩ := List.mem_map.mp hv
    exact hall row (List.mem_of_mem_filter hrow)
  · intro y g m
    unfold monthly_trend
    rw [List.filter_comm]
    have key : ∀ l : List UnifiedRow,
        ((l.filter fun row => row.valore.isSome).map fun r => r.valore) =
          (l.map fun r => r.valore).filter Option.isSome := by
      intro l
      induction l with
      | nil => rfl
      | cons a tl ih =>
        by_cases ha : a.valore.isSome <;>
          simp [List.filter_cons, ha, ih]
    rw [key]
    exact pandasMean_filter_isSome _

/-- Witness for C3 at the `n/d`-valued scenario. -/
theorem C3_witness :
    ∃ row ∈ [ndRow], row.stazione_id = pyStr ndRecord.stazione_id ∧
      row.inquinante = ndRecord.inquinante ∧ row.valore = none := by
  have h := (C3_unparsable_value_kept_and_excluded_from_means [viaTestFeature]
    ndFiles [ndRow] (by with_unfolding_all rfl)).1
  apply h ndRecord
  · have hg : gatherRecords ndFiles = [ndRecord] := by with_unfolding_all rfl
    rw [hg]
    exact List.mem_singleton.mpr rfl
  · with_unfolding_all rfl

/-- C4 counterexample: with a well-formed station file and a single 2020
record whose date string is unparsable, the loader raises (`pd.to_datetime`
is called without a coerce policy on line 52) instead of keeping the record
with a missing date. -/
theorem C4_counterexample :
    parseDate badDateRecord.data = none ∧
    load_environmental_data (some [viaTestFeature]) badDateFiles =
      .error .dateParseError :=
  ⟨by with_unfolding_all rfl, by with_unfolding_all rfl⟩

/-- C4 amended: a measurement record whose date is unparsable makes the load
fail — the loader never returns a table when any gathered record has an
unparsable date. -/
theorem C4_amended_unparsable_date_is_fatal
    (geo : Option (List Feature)) (files : Nat → Option (List MeasRecord))
    (h : ∃ r ∈ gatherRecords files, parseDate r.data = none) :
    ∀ t, load_environmental_data geo files ≠ .ok t := by
  rintro t ht
  cases geo with
  | none =>
    simp only [load_environmental_data] at ht
    cases ht
  | some fs =>
    obtain ⟨-, main, -, hn, -, -, -⟩ := load_ok_parts ht
    obtain ⟨r, hr, hrd⟩ := h
    have hsome := normalizeAll_dates hn hr
    rw [hrd] at hsome
    simp at hsome

/-- Witness for the amended C4 at the unparsable-date scenario. -/
theorem C4_witness :
    load_environmental_data (some [viaTestFeature]) badDateFiles ≠
      .ok [viaTestRow] := by
  apply C4_amended_unparsable_date_is_fatal
  refine ⟨badDateRecord, ?_, by with_unfolding_all rfl⟩
  have hg : gatherRecords badDateFiles = [badDateRecord] := by
    with_unfolding_all rfl
  rw [hg]
  exact List.mem_singleton.mpr rfl

/-- C5: every row of the unified table either matches a station of the
metadata table on the normalized id and carries that station's name and
coordinates, or matches none and carries missing name/coordinates; and the
join drops no measurement row. -/
theorem C5_join_attaches_or_nulls_and_drops_nothing
    (fs : List Feature) (files : Nat → Option (List MeasRecord))
    (meta : List StationRow) (t : List UnifiedRow)
    (hmeta : loadStations fs = .ok meta)
    (ht : load_environmental_data (some fs) files = .ok t) :
    (∀ row ∈ t,
      (∃ s ∈ meta, pyStr s.id = row.stazione_id ∧ row.nome = some s.nome ∧
        row.coord = some s.coord) ∨
      ((∀ s ∈ meta, pyStr s.id ≠ row.stazione_id) ∧ row.nome = none ∧
        row.coord = none)) ∧
    (∃ main, normalizeAll (gatherRecords files) = .ok main ∧
      ∀ m ∈ main, ∃ row ∈ t, row.stazione_id = m.stazione_id ∧
        row.inquinante = m.inquinante ∧ row.data = m.data ∧
        row.valore = m.valore ∧ row.anno = m.anno ∧ row.mese = m.mese) := by
  obtain ⟨meta', main, hs, hn, -, -, rfl⟩ := load_ok_parts ht
  rw [hmeta] at hs
  cases hs
  constructor
  · intro row hrow
    rcases leftJoin_mem_cases hrow with ⟨s, hsm, h1, -, h3, h4⟩ | ⟨h1, -, h3, h4⟩
    · exact Or.inl ⟨s, hsm, h1, h3, h4⟩
    · exact Or.inr ⟨h1, h3, h4⟩
  · exact ⟨main, hn, fun m hm => leftJoin_mem_left hm⟩

/-- Witness for C5 at the one-station, one-year scenario, instantiated at the
single resulting row. -/
theorem C5_witness :
    (∃ s ∈ [(⟨.jstr "500", .jstr "Via Test",
        [(9.19 : ℚ), (45.46 : ℚ)]⟩ : StationRow)],
      pyStr s.id = viaTestRow.stazione_id ∧ viaTestRow.nome = some s.nome ∧
        viaTestRow.coord = some s.coord) ∨
    ((∀ s ∈ [(⟨.jstr "500", .jstr "Via Test",
        [(9.19 : ℚ), (45.46 : ℚ)]⟩ : StationRow)],
      pyStr s.id ≠ viaTestRow.stazione_id) ∧ viaTestRow.nome = none ∧
      viaTestRow.coord = none) :=
  (C5_join_attaches_or_nulls_and_drops_nothing [viaTestFeature] oneYearFiles
    [⟨.jstr "500", .jstr "Via Test", [(9.19 : ℚ), (45.46 : ℚ)]⟩] [viaTestRow]
    (by with_unfolding_all rfl) (by with_unfolding_all rfl)).1
    viaTestRow (List.mem_singleton.mpr rfl)

/-- C6 counterexample: with a metadata file whose station id `"500"` occurs
twice, the yearly files for 2020 and 2021 hold one record each, yet the
unified table has 4 rows, and removing the 2021 file leaves 2 rows — a
decrease of 2, not the removed file's record count 1. -/
theorem C6_counterexample :
    (load_environmental_data (some dupFeatures) twoYearFiles).map
      List.length = .ok 4 ∧
    (load_environmental_data (some dupFeatures)
      (removeYear twoYearFiles 2021)).map List.length = .ok 2 ∧
    ((twoYearFiles 2021).getD []).length = 1 :=
  ⟨by with_unfolding_all rfl, by with_unfolding_all rfl,
    by with_unfolding_all rfl⟩

/-- C6 amended: under the additional precondition that station ids are unique
after normalization, removing the yearly file of an in-range year from a
source set for which both loads succeed decreases the unified row count by
exactly that file's record count. -/
theorem C6_amended_missing_year_decreases_count
    (fs : List Feature) (files : Nat → Option (List MeasRecord)) (y : Nat)
    (meta : List StationRow) (t1 t2 : List UnifiedRow)
    (hy1 : 2016 ≤ y) (hy2 : y < 2026)
    (hmeta : loadStations fs = .ok meta)
    (hnodup : (meta.map fun s => pyStr s.id).Nodup)
    (h1 : load_environmental_data (some fs) files = .ok t1)
    (h2 : load_environmental_data (some fs) (removeYear files y) = .ok t2) :
    t1.length = t2.length + ((files y).getD []).length := by
  obtain ⟨m1, main1, hs1, hn1, -, -, rfl⟩ := load_ok_parts h1
  obtain ⟨m2, main2, hs2, hn2, -, -, rfl⟩ := load_ok_parts h2
  rw [hmeta] at hs1 hs2
  cases hs1
  cases hs2
  rw [leftJoin_length hnodup, leftJoin_length hnodup,
    normalizeAll_ok_length hn1, normalizeAll_ok_length hn2]
  exact gatherRecords_remove hy1 hy2

/-- Witness for the amended C6: unique station id, files for 2020 and 2021,
removing 2021. -/
theorem C6_witness :
    [viaTestRow, viaTest2021Row].length =
      [viaTestRow].length + ((twoYearFiles 2021).getD []).length :=
  C6_amended_missing_year_decreases_count [viaTestFeature] twoYearFiles 2021
    [⟨.jstr "500", .jstr "Via Test", [(9.19 : ℚ), (45.46 : ℚ)]⟩]
    [viaTestRow, viaTest2021Row] [viaTestRow]
    (by decide) (by decide) (by with_unfolding_all rfl) (by simp)
    (by with_unfolding_all rfl) (by with_unfolding_all rfl)

/-- C7: after normalization the string id `"12"` and the numeric id `12` get
the same canonical key, so a measurement row carrying either form joins to a
station carrying the other. -/
theorem C7_string_and_numeric_ids_join
    (a b : JVal)
    (ha : a = .jstr "12" ∨ a = .jint 12)
    (hb : b = .jstr "12" ∨ b = .jint 12) :
    pyStr a = pyStr b ∧
    ∀ (s : StationRow) (m : MainRow), s.id = a → m.stazione_id = pyStr b →
      leftJoin [m] [s] = [joinRow m s] := by
  have hab : pyStr a = pyStr b := by
    rcases ha with rfl | rfl <;> rcases hb with rfl | rfl <;>
      with_unfolding_all rfl
  refine ⟨hab, ?_⟩
  intro s m hs hm
  unfold leftJoin
  rw [List.flatMap_cons, List.flatMap_nil, List.append_nil]
  have hfil : List.filter (fun x => pyStr x.id == m.stazione_id) [s] = [s] := by
    rw [List.filter_cons]
    rw [if_pos (by rw [hs, hm, hab]; exact beq_self_eq_true _)]
    rfl
  rw [hfil]
  rw [if_neg (by simp)]
  rfl

/-- Witness for C7: numeric station id 12, string measurement id `"12"`. -/
theorem C7_witness :
    leftJoin
      [(⟨"12", "NO2", ⟨2020, 3, 15⟩, some 1, 2020, 3⟩ : MainRow)]
      [(⟨.jint 12, .jstr "Via Dodici", [9, 45]⟩ : StationRow)] =
      [joinRow ⟨"12", "NO2", ⟨2020, 3, 15⟩, some 1, 2020, 3⟩
        ⟨.jint 12, .jstr "Via Dodici", [9, 45]⟩] :=
  (C7_string_and_numeric_ids_join (.jint 12) (.jstr "12")
    (Or.inr rfl) (Or.inl rfl)).2
    ⟨.jint 12, .jstr "Via Dodici", [9, 45]⟩
    ⟨"12", "NO2", ⟨2020, 3, 15⟩, some 1, 2020, 3⟩
    rfl (by with_unfolding_all rfl)

/-- C8: an absent station-metadata file is fatal — the loader aborts with the
source-not-found error; and the loader never returns a partial dataset: every
run either fails with an error or returns a table. -/
theorem C8_missing_metadata_is_fatal :
    (∀ files, load_environmental_data none files = .error .sourceNotFound) ∧
    (∀ geo files, (∃ e, load_environmental_data geo files = .error e) ∨
      (∃ t, load_environmental_data geo files = .ok t)) := by
  constructor
  · intro files
    rfl
  · intro geo files
    cases h : load_environmental_data geo files with
    | error e => exact Or.inl ⟨e, rfl⟩
    | ok t => exact Or.inr ⟨t, rfl⟩

/-- C9: station ingestion fails (necessarily with the schema error) exactly
when some feature lacks `id_amat` in its properties, `nome` in its
properties, or `coordinates` in its geometry; otherwise it succeeds with one
station row per feature. -/
theorem C9_schema_error_iff_missing_field (fs : List Feature) :
    ((∃ e, loadStations fs = .error e) ↔
      ∃ f ∈ fs, f.properties.lookup "id_amat" = none ∨
        f.properties.lookup "nome" = none ∨
        f.geometry.lookup "coordinates" = none) ∧
    (∀ e, loadStations fs = .error e → e = .schemaError) ∧
    (∀ rows, loadStations fs = .ok rows → rows.length = fs.length) := by
  refine ⟨?_, fun e he => loadStations_error_eq he,
    fun rows hr => loadStations_ok_length hr⟩
  rw [loadStations_error_iff]
  constructor
  · rintro ⟨f, hf, hn⟩
    exact ⟨f, hf, (extractStation_eq_none_iff f).mp hn⟩
  · rintro ⟨f, hf, hn⟩
    exact ⟨f, hf, (extractStation_eq_none_iff f).mpr hn⟩

/-- Witness for C9 at a feature lacking the `nome` property. -/
theorem C9_witness : ∃ e, loadStations [noNomeFeature] = .error e :=
  (C9_schema_error_iff_missing_field [noNomeFeature]).1.mpr
    ⟨noNomeFeature, List.mem_singleton.mpr rfl,
      Or.inr (Or.inl (by with_unfolding_all rfl))⟩

/-- C10: with well-formed station metadata but no yearly file present for any
year of 2016-2025, the loader does not return an empty table: it fails,
because the column accesses of the normalization step hit an empty,
column-less record collection. -/
theorem C10_no_yearly_files_is_fatal
    (fs : List Feature) (meta : List StationRow)
    (files : Nat → Option (List MeasRecord))
    (hmeta : loadStations fs = .ok meta)
    (hnone : ∀ y, 2016 ≤ y → y < 2026 → files y = none) :
    load_environmental_data (some fs) files = .error (.keyError "data") := by
  have hrec := gatherRecords_all_none hnone
  simp only [load_environmental_data, hmeta, hrec]
  rfl

/-- Witness for C10: one well-formed station, no yearly file at all. -/
theorem C10_witness :
    load_environmental_data (some [viaTestFeature]) (fun _ => none) =
      .error (.keyError "data") :=
  C10_no_yearly_files_is_fatal [viaTestFeature]
    [⟨.jstr "500", .jstr "Via Test", [(9.19 : ℚ), (45.46 : ℚ)]⟩]
    (fun _ => none) (by with_unfolding_all rfl) (fun y _ _ => rfl)
